import Mathlib

/-
  Verification development for the BlueHorizonDeals bot
  (src/BlueHorizonDealsbot.py).

  The embedding models the persistence layer (SQLite tables `wishlist`,
  `tracking`, `notify_state`) as lists of rows, the price source adapter
  (`fetch_steam_appdetails`) as an abstract function returning an optional
  snapshot, and the background job `job_check_prices` as a fold over the
  tracked rows.  Python integers become `Int`; a nullable column or a value
  that may be `None` becomes `Option Int`.  Python truthiness on an optional
  integer (`None` and `0` are falsy) is modelled by `pyTruthy`.
-/

namespace BlueHorizonDeals

/-- Normalized price snapshot as returned by `fetch_steam_appdetails`:
`discount_percent` is always an `int` (the source coerces via `int(discount or 0)`),
`final_price` and `original_price` may be `None`. -/
structure PriceInfo where
  name : Option String
  discount_percent : Int
  final_price : Option Int
  original_price : Option Int
  url : String
deriving Repr, DecidableEq

/-- A row of the `notify_state` table.  `last_discount_percent` is an `Int`
because the only writer, `db_upsert_notify_state`, always stores the integer
`disc`; `last_price` is nullable because `final_price` may be `None`. -/
structure NSRow where
  user_id : Int
  platform : String
  identifier : String
  last_discount_percent : Int
  last_price : Option Int
  last_notified_at : Int
deriving Repr, DecidableEq

/-- A row of the `wishlist` table. -/
structure WRow where
  user_id : Int
  platform : String
  identifier : String
  title : String
deriving Repr, DecidableEq

/-- A row of the `tracking` table (wishlist shape plus `threshold`). -/
structure TrackingRow where
  user_id : Int
  platform : String
  identifier : String
  title : String
  threshold : Int
deriving Repr, DecidableEq

/-- The composite primary key (user_id, platform, identifier) shared by all
three tables. -/
abbrev Key := Int × String × String

def nsKey (r : NSRow) : Key := (r.user_id, r.platform, r.identifier)

def wKey (r : WRow) : Key := (r.user_id, r.platform, r.identifier)

def tKey (r : TrackingRow) : Key := (r.user_id, r.platform, r.identifier)

/-- The reason string attached to a price alert, keeping the numeric payload
rather than the rendered text (rendering is out of core scope, spec 4.5).
`discount d` stands for the source text `Discount -d%`; `priceDrop lp fp`
stands for `Price dropped from rupees(lp) to rupees(fp)`. -/
inductive Reason where
  | discount (d : Int)
  | priceDrop (lastPrice finalPrice : Option Int)
deriving Repr, DecidableEq

/-- The message passed to `context.bot.send_message`, with the chat id and the
fields interpolated into the alert text. -/
structure Message where
  chat_id : Int
  title : String
  reason : Reason
  url : String
  final_price : Option Int
  original_price : Option Int
deriving Repr, DecidableEq

/-- Python truthiness of an optional integer: `None` and `0` are falsy. -/
def pyTruthy : Option Int → Bool
  | none => false
  | some n => !(n == 0)

/-- Python `last_disc != disc` where `last_disc` may be `None`:
`None != disc` is `True`, otherwise integer disequality. -/
def pyNeqOpt (lastDisc : Option Int) (disc : Int) : Bool :=
  match lastDisc with
  | none => true
  | some d => d != disc

/-- The guard `final_price and last_price and final_price < last_price` from
`job_check_prices`: both operands truthy (non-`None` and nonzero), then a
strict integer comparison. -/
def priceDropGuard (finalPrice lastPrice : Option Int) : Bool :=
  pyTruthy finalPrice && pyTruthy lastPrice &&
    decide (finalPrice.getD 0 < lastPrice.getD 0)

/-- The three-branch notify decision of `job_check_prices` (source lines
584-594), returning the alert reason on notify and `none` on no-op. -/
def decideReason (disc : Int) (finalPrice : Option Int)
    (lastDisc lastPrice : Option Int) : Option Reason :=
  if decide (disc > 0) && pyNeqOpt lastDisc disc then
    some (Reason.discount disc)
  else if priceDropGuard finalPrice lastPrice then
    some (Reason.priceDrop lastPrice finalPrice)
  else if lastDisc.isNone && decide (disc > 0) then
    some (Reason.discount disc)
  else
    none

/-- `db_get_notify_state`: SELECT by the composite key. -/
def db_get_notify_state (tbl : List NSRow) (u : Int) (p i : String) :
    Option NSRow :=
  tbl.find? (fun r => nsKey r == (u, p, i))

/-- `db_upsert_notify_state`: INSERT ... ON CONFLICT(user_id, platform,
identifier) DO UPDATE of the three data columns; `ts` models `int(time.time())`
passed in by the caller's clock. -/
def db_upsert_notify_state (tbl : List NSRow) (u : Int) (p i : String)
    (disc : Int) (price : Option Int) (ts : Int) : List NSRow :=
  match tbl with
  | [] => [⟨u, p, i, disc, price, ts⟩]
  | r :: rest =>
    if nsKey r = (u, p, i) then
      { r with last_discount_percent := disc, last_price := price,
               last_notified_at := ts } :: rest
    else
      r :: db_upsert_notify_state rest u p i disc price ts

/-- `db_add_wishlist`: INSERT that signals a duplicate composite key by
returning `false` (the `sqlite3.IntegrityError` path) and leaves the table
unchanged; otherwise inserts and returns `true`. -/
def db_add_wishlist (tbl : List WRow) (u : Int) (p i title : String) :
    Bool × List WRow :=
  if tbl.any (fun r => wKey r == (u, p, i)) then (false, tbl)
  else (true, tbl ++ [⟨u, p, i, title⟩])

/-- `db_remove_wishlist`: DELETE by composite key, returning
`rowcount > 0`. -/
def db_remove_wishlist (tbl : List WRow) (u : Int) (p i : String) :
    Bool × List WRow :=
  let kept := tbl.filter (fun r => !(wKey r == (u, p, i)))
  (decide (kept.length < tbl.length), kept)

/-- `db_add_tracking`: like `db_add_wishlist` but on the `tracking` table,
storing the threshold. -/
def db_add_tracking (tbl : List TrackingRow) (u : Int) (p i title : String)
    (threshold : Int) : Bool × List TrackingRow :=
  if tbl.any (fun r => tKey r == (u, p, i)) then (false, tbl)
  else (true, tbl ++ [⟨u, p, i, title, threshold⟩])

/-- `db_remove_tracking`: DELETE by composite key, returning
`rowcount > 0`. -/
def db_remove_tracking (tbl : List TrackingRow) (u : Int) (p i : String) :
    Bool × List TrackingRow :=
  let kept := tbl.filter (fun r => !(tKey r == (u, p, i)))
  (decide (kept.length < tbl.length), kept)

/-- The alert message built in the notify branch of `job_check_prices`. -/
def alertMessage (row : TrackingRow) (info : PriceInfo) (r : Reason) :
    Message :=
  ⟨row.user_id, row.title, r, info.url, info.final_price, info.original_price⟩

/-- One iteration of the loop body of `job_check_prices` for a single tracked
row.  `fetch` abstracts `fetch_steam_appdetails`, `deliver` abstracts
`context.bot.send_message` (its result is ignored by the control flow: the
`try/except: pass` swallows a delivery failure), `ts` is the clock read by
`db_upsert_notify_state`.  The accumulator carries the `notify_state` table
and the log of attempted sends with their delivery outcomes. -/
def processItem (fetch : String → Option PriceInfo) (deliver : Message → Bool)
    (ts : Int) (acc : List NSRow × List (Message × Bool)) (row : TrackingRow) :
    List NSRow × List (Message × Bool) :=
  if row.platform != "steam" then acc
  else
    match fetch row.identifier with
    | none => acc
    | some info =>
      let disc := info.discount_percent
      let finalPrice := info.final_price
      let state := db_get_notify_state acc.1 row.user_id row.platform
        row.identifier
      let lastDisc := state.map (fun s => s.last_discount_percent)
      let lastPrice := state.bind (fun s => s.last_price)
      match decideReason disc finalPrice lastDisc lastPrice with
      | some r =>
        let msg := alertMessage row info r
        (db_upsert_notify_state acc.1 row.user_id row.platform row.identifier
           disc finalPrice ts,
         acc.2 ++ [(msg, deliver msg)])
      | none =>
        match state with
        | none =>
          (db_upsert_notify_state acc.1 row.user_id row.platform row.identifier
             disc finalPrice ts,
           acc.2)
        | some _ => acc

/-- The whole background job `job_check_prices`: fold the loop body over the
rows of `db_get_all_tracked`, starting from the current `notify_state` table
and an empty send log. -/
def job_check_prices (fetch : String → Option PriceInfo)
    (deliver : Message → Bool) (ts : Int) (tracked : List TrackingRow)
    (ns : List NSRow) : List NSRow × List (Message × Bool) :=
  tracked.foldl (processItem fetch deliver ts) (ns, [])

/-- The notify/no-op decision of the code as a function of the snapshot and
the optional prior state `(last_discount_percent, last_price)`, exactly the
projections used by `job_check_prices`. -/
def codeDecision (disc : Int) (finalPrice : Option Int)
    (last : Option (Int × Option Int)) : Bool :=
  (decideReason disc finalPrice (last.map Prod.fst)
    (last.bind Prod.snd)).isSome

/-- The spec's four-rule priority decision (spec 4.2), stated from its words:
rule 1 notifies when `last` is absent and the discount is positive; rule 2
when `last` is present, the discount changed and is positive; rule 3 when
both the current final price and the last price are present and the current
one is strictly lower; rule 4 is no-op. -/
def specDecision (disc : Int) (finalPrice : Option Int)
    (last : Option (Int × Option Int)) : Bool :=
  match last with
  | none => decide (disc > 0)
  | some (lastDisc, lastPrice) =>
    if disc ≠ lastDisc ∧ disc > 0 then true
    else
      match finalPrice, lastPrice with
      | some f, some l => decide (f < l)
      | _, _ => false

/-- The spec decision with rule 3 amended to require both prices present AND
nonzero, matching the truthiness guard in the source. -/
def specDecisionNonzero (disc : Int) (finalPrice : Option Int)
    (last : Option (Int × Option Int)) : Bool :=
  match last with
  | none => decide (disc > 0)
  | some (lastDisc, lastPrice) =>
    if disc ≠ lastDisc ∧ disc > 0 then true
    else
      match finalPrice, lastPrice with
      | some f, some l => decide (f ≠ 0 ∧ l ≠ 0 ∧ f < l)
      | _, _ => false

/-- Claim C1 counterexample: at discount 0 unchanged, current final price 0
(present) and last price 500, the spec's four-rule priority function notifies
(rule 3: 0 < 500) but the code decides no-op, because the Python guard
`final_price and last_price and ...` treats the price 0 as falsy. -/
theorem C1_counterexample :
    specDecision 0 (some 0) (some (0, some 500)) = true ∧
    codeDecision 0 (some 0) (some (0, some 500)) = false := by
  constructor <;> rfl

/-- Claim C1 (amended): the background job's notify/no-op decision equals the
spec's four-rule priority function once rule 3 is amended to require both the
current final price and the last price to be present AND nonzero. -/
theorem C1_decision_matches_amended_spec (disc : Int) (fp : Option Int)
    (last : Option (Int × Option Int)) :
    codeDecision disc fp last = specDecisionNonzero disc fp last := by
  rcases last with _ | ⟨ld, lp⟩
  · by_cases h1 : disc > 0 <;>
      simp [codeDecision, specDecisionNonzero, decideReason, priceDropGuard,
        pyTruthy, pyNeqOpt, h1]
  · rcases fp with _ | f <;> rcases lp with _ | l <;>
      by_cases h1 : disc > 0 <;> by_cases h2 : ld = disc <;>
      simp [codeDecision, specDecisionNonzero, decideReason, priceDropGuard,
        pyTruthy, pyNeqOpt, h1, h2] <;>
      (try split) <;> simp_all <;> omega

/-- Claim C3 counterexample: with the final price 0 present, the last price
300 present, 0 < 300, and no earlier rule firing (discount 0, unchanged), the
claim says notify with a price-drop reason, but the code decides no-op: the
truthiness guard rejects the present price 0. -/
theorem C3_counterexample :
    (0 : Int) < 300 ∧
    decideReason 0 (some 0) (some 0) (some 300) = none := by
  constructor
  · decide
  · rfl

/-- Claim C3 (amended): when the current final price and the last price are
both present and nonzero, the current final price is strictly below the last
price, and no earlier rule fires (the discount is not both positive and
changed), the decision is notify with the price-drop reason. -/
theorem C3_price_drop_notifies (disc ld f l : Int)
    (hEarlier : ¬(disc > 0 ∧ disc ≠ ld)) (hf : f ≠ 0) (hl : l ≠ 0)
    (hlt : f < l) :
    decideReason disc (some f) (some ld) (some l)
      = some (Reason.priceDrop (some l) (some f)) := by
  have hbranch1 : (decide (disc > 0) && pyNeqOpt (some ld) disc) = false := by
    simp [pyNeqOpt]
    intro h
    rcases not_and_or.mp hEarlier with h1 | h1
    · exact absurd h h1
    · omega
  simp [decideReason, hbranch1, priceDropGuard, pyTruthy, hf, hl, hlt]

/-- Claim C3 witness: a concrete unchanged positive discount with a genuine
nonzero price drop notifies with the price-drop reason. -/
theorem C3_price_drop_notifies_witness :
    decideReason 5 (some 4000) (some 5) (some 5000)
      = some (Reason.priceDrop (some 5000) (some 4000)) :=
  C3_price_drop_notifies 5 5 4000 5000 (by decide) (by decide) (by decide)
    (by decide)

lemma get_after_upsert (u : Int) (p i : String) (d : Int) (fp : Option Int)
    (ts : Int) (tbl : List NSRow) :
    db_get_notify_state (db_upsert_notify_state tbl u p i d fp ts) u p i
      = some ⟨u, p, i, d, fp, ts⟩ := by
  induction tbl with
  | nil => simp [db_get_notify_state, db_upsert_notify_state, nsKey]
  | cons r rest ih =>
    by_cases h : r.user_id = u ∧ r.platform = p ∧ r.identifier = i
    · obtain ⟨h1, h2, h3⟩ := h
      simp [db_upsert_notify_state, nsKey, Prod.ext_iff, h1, h2, h3,
        db_get_notify_state]
    · have hcond : ¬ nsKey r = (u, p, i) := by
        simpa [nsKey, Prod.ext_iff] using h
      have hwrite : db_upsert_notify_state (r :: rest) u p i d fp ts
          = r :: db_upsert_notify_state rest u p i d fp ts := by
        simp [db_upsert_notify_state, hcond]
      have hpred : (nsKey r == (u, p, i)) = false := by
        simpa using hcond
      rw [hwrite, db_get_notify_state, List.find?_cons_of_neg _ (by simp [hpred]),
        ← db_get_notify_state, ih]

lemma decideReason_self (disc : Int) (fp : Option Int) :
    decideReason disc fp (some disc) fp = none := by
  have h1 : pyNeqOpt (some disc) disc = false := by simp [pyNeqOpt]
  have h2 : priceDropGuard fp fp = false := by
    cases fp <;> simp [priceDropGuard, pyTruthy]
  simp [decideReason, h1, h2]

lemma processItem_notify (fetch : String → Option PriceInfo)
    (deliver : Message → Bool) (ts : Int) (ns : List NSRow)
    (msgs : List (Message × Bool)) (row : TrackingRow) (info : PriceInfo)
    (r : Reason) (hplat : row.platform = "steam")
    (hf : fetch row.identifier = some info)
    (hdec : decideReason info.discount_percent info.final_price
      ((db_get_notify_state ns row.user_id row.platform row.identifier).map
        (fun s => s.last_discount_percent))
      ((db_get_notify_state ns row.user_id row.platform row.identifier).bind
        (fun s => s.last_price)) = some r) :
    processItem fetch deliver ts (ns, msgs) row =
      (db_upsert_notify_state ns row.user_id row.platform row.identifier
         info.discount_percent info.final_price ts,
       msgs ++ [(alertMessage row info r, deliver (alertMessage row info r))]) := by
  rw [hplat] at hdec
  simp [processItem, hplat, hf, hdec]

lemma processItem_noop_some (fetch : String → Option PriceInfo)
    (deliver : Message → Bool) (ts : Int) (ns : List NSRow)
    (msgs : List (Message × Bool)) (row : TrackingRow) (info : PriceInfo)
    (hplat : row.platform = "steam") (hf : fetch row.identifier = some info)
    (hdec : decideReason info.discount_percent info.final_price
      ((db_get_notify_state ns row.user_id row.platform row.identifier).map
        (fun s => s.last_discount_percent))
      ((db_get_notify_state ns row.user_id row.platform row.identifier).bind
        (fun s => s.last_price)) = none)
    (s : NSRow)
    (hstate : db_get_notify_state ns row.user_id row.platform row.identifier
      = some s) :
    processItem fetch deliver ts (ns, msgs) row = (ns, msgs) := by
  rw [hplat] at hdec hstate
  rw [hstate] at hdec
  simp at hdec
  simp [processItem, hplat, hf, hdec, hstate]

lemma processItem_noop_none (fetch : String → Option PriceInfo)
    (deliver : Message → Bool) (ts : Int) (ns : List NSRow)
    (msgs : List (Message × Bool)) (row : TrackingRow) (info : PriceInfo)
    (hplat : row.platform = "steam") (hf : fetch row.identifier = some info)
    (hdec : decideReason info.discount_percent info.final_price
      ((db_get_notify_state ns row.user_id row.platform row.identifier).map
        (fun s => s.last_discount_percent))
      ((db_get_notify_state ns row.user_id row.platform row.identifier).bind
        (fun s => s.last_price)) = none)
    (hstate : db_get_notify_state ns row.user_id row.platform row.identifier
      = none) :
    processItem fetch deliver ts (ns, msgs) row
      = (db_upsert_notify_state ns row.user_id row.platform row.identifier
           info.discount_percent info.final_price ts, msgs) := by
  rw [hplat] at hdec hstate
  rw [hstate] at hdec
  simp at hdec
  simp [processItem, hplat, hf, hdec, hstate]

/-- Claim C2: on a notify decision the `notify_state` row is overwritten with
the snapshot's discount, final price and the fresh timestamp, for every
delivery outcome: two arbitrary delivery functions (one may fail) yield the
same resulting table, which holds the snapshot under the item's key. -/
theorem C2_notify_commits_state_regardless_of_delivery
    (fetch : String → Option PriceInfo) (d1 d2 : Message → Bool) (ts : Int)
    (ns : List NSRow) (msgs : List (Message × Bool)) (row : TrackingRow)
    (info : PriceInfo) (r : Reason) (hplat : row.platform = "steam")
    (hf : fetch row.identifier = some info)
    (hdec : decideReason info.discount_percent info.final_price
      ((db_get_notify_state ns row.user_id row.platform row.identifier).map
        (fun s => s.last_discount_percent))
      ((db_get_notify_state ns row.user_id row.platform row.identifier).bind
        (fun s => s.last_price)) = some r) :
    (processItem fetch d1 ts (ns, msgs) row).1
        = db_upsert_notify_state ns row.user_id row.platform row.identifier
            info.discount_percent info.final_price ts ∧
    (processItem fetch d2 ts (ns, msgs) row).1
        = (processItem fetch d1 ts (ns, msgs) row).1 ∧
    db_get_notify_state (processItem fetch d1 ts (ns, msgs) row).1
        row.user_id row.platform row.identifier
      = some ⟨row.user_id, row.platform, row.identifier,
          info.discount_percent, info.final_price, ts⟩ := by
  rw [processItem_notify fetch d1 ts ns msgs row info r hplat hf hdec,
      processItem_notify fetch d2 ts ns msgs row info r hplat hf hdec]
  exact ⟨rfl, rfl, get_after_upsert _ _ _ _ _ _ _⟩

/-- Claim C2 witness: concrete first observation of a 10% discount; delivery
succeeding and delivery failing commit the same overwritten state row. -/
theorem C2_notify_commits_state_regardless_of_delivery_witness :
    (processItem (fun _ => some ⟨some "Dota 2", 10, some 900, some 1000, "u"⟩)
        (fun _ => true) 100 ([], []) ⟨1, "steam", "570", "Dota 2", 0⟩).1
        = db_upsert_notify_state [] 1 "steam" "570" 10 (some 900) 100 ∧
    (processItem (fun _ => some ⟨some "Dota 2", 10, some 900, some 1000, "u"⟩)
        (fun _ => false) 100 ([], []) ⟨1, "steam", "570", "Dota 2", 0⟩).1
        = (processItem (fun _ => some ⟨some "Dota 2", 10, some 900, some 1000, "u"⟩)
            (fun _ => true) 100 ([], []) ⟨1, "steam", "570", "Dota 2", 0⟩).1 ∧
    db_get_notify_state
        (processItem (fun _ => some ⟨some "Dota 2", 10, some 900, some 1000, "u"⟩)
          (fun _ => true) 100 ([], []) ⟨1, "steam", "570", "Dota 2", 0⟩).1
        1 "steam" "570"
      = some ⟨1, "steam", "570", 10, some 900, 100⟩ :=
  C2_notify_commits_state_regardless_of_delivery
    (fun _ => some ⟨some "Dota 2", 10, some 900, some 1000, "u"⟩)
    (fun _ => true) (fun _ => false) 100 [] []
    ⟨1, "steam", "570", "Dota 2", 0⟩ ⟨some "Dota 2", 10, some 900, some 1000, "u"⟩
    (Reason.discount 10) rfl rfl (by decide)

/-- Claim C4: idempotence of the decision step: if processing a tracked row
produced a notify, processing the identical snapshot again against the state
just recorded is a no-op that changes neither the table nor the send log. -/
theorem C4_decision_step_idempotent (fetch : String → Option PriceInfo)
    (deliver : Message → Bool) (ts : Int) (ns : List NSRow)
    (msgs : List (Message × Bool)) (row : TrackingRow) (info : PriceInfo)
    (r : Reason) (hplat : row.platform = "steam")
    (hf : fetch row.identifier = some info)
    (hdec : decideReason info.discount_percent info.final_price
      ((db_get_notify_state ns row.user_id row.platform row.identifier).map
        (fun s => s.last_discount_percent))
      ((db_get_notify_state ns row.user_id row.platform row.identifier).bind
        (fun s => s.last_price)) = some r) :
    processItem fetch deliver ts (processItem fetch deliver ts (ns, msgs) row)
        row
      = processItem fetch deliver ts (ns, msgs) row := by
  rw [processItem_notify fetch deliver ts ns msgs row info r hplat hf hdec]
  refine processItem_noop_some fetch deliver ts _ _ row info hplat hf ?_
    ⟨row.user_id, row.platform, row.identifier, info.discount_percent,
      info.final_price, ts⟩ (get_after_upsert _ _ _ _ _ _ _)
  rw [get_after_upsert]
  simpa using decideReason_self info.discount_percent info.final_price

/-- Claim C4 witness: after a concrete first-discount notify the same
snapshot processed again against the recorded state changes nothing. -/
theorem C4_decision_step_idempotent_witness :
    processItem (fun _ => some ⟨some "Hades", 20, some 475, some 1900, "u"⟩)
        (fun _ => true) 7
        (processItem (fun _ => some ⟨some "Hades", 20, some 475, some 1900, "u"⟩)
          (fun _ => true) 7 ([], []) ⟨2, "steam", "1145360", "Hades", 0⟩)
        ⟨2, "steam", "1145360", "Hades", 0⟩
      = processItem (fun _ => some ⟨some "Hades", 20, some 475, some 1900, "u"⟩)
          (fun _ => true) 7 ([], []) ⟨2, "steam", "1145360", "Hades", 0⟩ :=
  C4_decision_step_idempotent
    (fun _ => some ⟨some "Hades", 20, some 475, some 1900, "u"⟩)
    (fun _ => true) 7 [] [] ⟨2, "steam", "1145360", "Hades", 0⟩
    ⟨some "Hades", 20, some 475, some 1900, "u"⟩ (Reason.discount 20)
    rfl rfl (by decide)

/-- Claim C5: first observation with a positive discount: when no
`notify_state` row exists and the discount is positive, the step notifies
(the alert is appended to the send log) and the resulting row holds exactly
the snapshot's discount percent and final price. -/
theorem C5_first_observation_notifies (fetch : String → Option PriceInfo)
    (deliver : Message → Bool) (ts : Int) (ns : List NSRow)
    (msgs : List (Message × Bool)) (row : TrackingRow) (info : PriceInfo)
    (hplat : row.platform = "steam") (hf : fetch row.identifier = some info)
    (hstate : db_get_notify_state ns row.user_id row.platform row.identifier
      = none)
    (hdisc : info.discount_percent > 0) :
    (processItem fetch deliver ts (ns, msgs) row).2
      = msgs ++ [(alertMessage row info (Reason.discount info.discount_percent),
          deliver (alertMessage row info (Reason.discount info.discount_percent)))] ∧
    db_get_notify_state (processItem fetch deliver ts (ns, msgs) row).1
        row.user_id row.platform row.identifier
      = some ⟨row.user_id, row.platform, row.identifier,
          info.discount_percent, info.final_price, ts⟩ := by
  have hdec : decideReason info.discount_percent info.final_price
      ((db_get_notify_state ns row.user_id row.platform row.identifier).map
        (fun s => s.last_discount_percent))
      ((db_get_notify_state ns row.user_id row.platform row.identifier).bind
        (fun s => s.last_price)) = some (Reason.discount info.discount_percent) := by
    rw [hstate]
    simp [decideReason, pyNeqOpt, hdisc]
  rw [processItem_notify fetch deliver ts ns msgs row info _ hplat hf hdec]
  exact ⟨rfl, get_after_upsert _ _ _ _ _ _ _⟩

/-- Claim C5 witness: concrete first observation at 10% discount, price 900:
the alert is logged and the recorded state is (10, 900). -/
theorem C5_first_observation_notifies_witness :
    (processItem (fun _ => some ⟨some "Celeste", 10, some 900, some 1000, "u"⟩)
        (fun _ => true) 3 ([], []) ⟨4, "steam", "504230", "Celeste", 0⟩).2
      = [] ++ [(alertMessage ⟨4, "steam", "504230", "Celeste", 0⟩
            ⟨some "Celeste", 10, some 900, some 1000, "u"⟩ (Reason.discount 10),
          true)] ∧
    db_get_notify_state
        (processItem (fun _ => some ⟨some "Celeste", 10, some 900, some 1000, "u"⟩)
          (fun _ => true) 3 ([], []) ⟨4, "steam", "504230", "Celeste", 0⟩).1
        4 "steam" "504230"
      = some ⟨4, "steam", "504230", 10, some 900, 3⟩ :=
  C5_first_observation_notifies
    (fun _ => some ⟨some "Celeste", 10, some 900, some 1000, "u"⟩)
    (fun _ => true) 3 [] [] ⟨4, "steam", "504230", "Celeste", 0⟩
    ⟨some "Celeste", 10, some 900, some 1000, "u"⟩ rfl rfl rfl (by decide)

/-- Claim C6: frame property of no-op decisions: with a prior row present the
step leaves table and send log completely unchanged; with no prior row it
records the snapshot as the new baseline without sending anything. -/
theorem C6_noop_frame (fetch : String → Option PriceInfo)
    (deliver : Message → Bool) (ts : Int) (ns : List NSRow)
    (msgs : List (Message × Bool)) (row : TrackingRow) (info : PriceInfo)
    (hplat : row.platform = "steam") (hf : fetch row.identifier = some info)
    (hdec : decideReason info.discount_percent info.final_price
      ((db_get_notify_state ns row.user_id row.platform row.identifier).map
        (fun s => s.last_discount_percent))
      ((db_get_notify_state ns row.user_id row.platform row.identifier).bind
        (fun s => s.last_price)) = none) :
    (∀ s, db_get_notify_state ns row.user_id row.platform row.identifier
        = some s →
      processItem fetch deliver ts (ns, msgs) row = (ns, msgs)) ∧
    (db_get_notify_state ns row.user_id row.platform row.identifier = none →
      processItem fetch deliver ts (ns, msgs) row
        = (db_upsert_notify_state ns row.user_id row.platform row.identifier
             info.discount_percent info.final_price ts, msgs)) := by
  constructor
  · intro s hstate
    exact processItem_noop_some fetch deliver ts ns msgs row info hplat hf hdec
      s hstate
  · intro hstate
    exact processItem_noop_none fetch deliver ts ns msgs row info hplat hf hdec
      hstate

/-- Claim C6 witness: a discount reverting from 20% to 0% with an unchanged
price is a no-op that leaves the existing state row untouched and sends
nothing. -/
theorem C6_noop_frame_witness :
    processItem (fun _ => some ⟨some "Okami", 0, some 900, some 900, "u"⟩)
        (fun _ => true) 9
        ([⟨5, "steam", "587620", 20, some 900, 2⟩], [])
        ⟨5, "steam", "587620", "Okami", 0⟩
      = ([⟨5, "steam", "587620", 20, some 900, 2⟩], []) :=
  (C6_noop_frame (fun _ => some ⟨some "Okami", 0, some 900, some 900, "u"⟩)
      (fun _ => true) 9 [⟨5, "steam", "587620", 20, some 900, 2⟩] []
      ⟨5, "steam", "587620", "Okami", 0⟩
      ⟨some "Okami", 0, some 900, some 900, "u"⟩ rfl rfl (by decide)).1
    ⟨5, "steam", "587620", 20, some 900, 2⟩ (by decide)

/-- At most one row per composite key: all keys in the table are pairwise
distinct (the PRIMARY KEY invariant of `notify_state`). -/
def nsKeysUnique (tbl : List NSRow) : Prop :=
  tbl.Pairwise (fun a b => nsKey a ≠ nsKey b)

lemma mem_upsert_key (u : Int) (p i : String) (d : Int) (fp : Option Int)
    (ts : Int) :
    ∀ (tbl : List NSRow) (b : NSRow),
      b ∈ db_upsert_notify_state tbl u p i d fp ts →
      nsKey b = (u, p, i) ∨ ∃ a ∈ tbl, nsKey b = nsKey a := by
  intro tbl
  induction tbl with
  | nil =>
    intro b hb
    simp [db_upsert_notify_state] at hb
    left
    simp [hb, nsKey]
  | cons r rest ih =>
    intro b hb
    by_cases h : nsKey r = (u, p, i)
    · simp [db_upsert_notify_state, h] at hb
      rcases hb with hb | hb
      · left
        simp [hb, nsKey, ← h]
      · right
        exact ⟨b, List.mem_cons_of_mem r hb, rfl⟩
    · simp [db_upsert_notify_state, h] at hb
      rcases hb with hb | hb
      · right
        exact ⟨r, List.mem_cons_self r rest, by simp [hb]⟩
      · rcases ih b hb with hk | ⟨a, ha, hk⟩
        · exact Or.inl hk
        · exact Or.inr ⟨a, List.mem_cons_of_mem r ha, hk⟩

lemma upsert_cons_conflict (r : NSRow) (rest : List NSRow) (u : Int)
    (p i : String) (d : Int) (fp : Option Int) (ts : Int)
    (hc : nsKey r = (u, p, i)) :
    db_upsert_notify_state (r :: rest) u p i d fp ts
      = ⟨r.user_id, r.platform, r.identifier, d, fp, ts⟩ :: rest := by
  simp [db_upsert_notify_state, hc]

lemma upsert_cons_skip (r : NSRow) (rest : List NSRow) (u : Int)
    (p i : String) (d : Int) (fp : Option Int) (ts : Int)
    (hc : ¬ nsKey r = (u, p, i)) :
    db_upsert_notify_state (r :: rest) u p i d fp ts
      = r :: db_upsert_notify_state rest u p i d fp ts := by
  simp [db_upsert_notify_state, hc]

/-- Claim C7: operations preserve the at-most-one-row-per-key invariant of
`notify_state`: the upsert updates the existing row in place on a key
conflict and inserts a fresh row only for an absent key, so pairwise-distinct
keys stay pairwise distinct. -/
theorem C7_upsert_preserves_key_uniqueness (tbl : List NSRow) (u : Int)
    (p i : String) (d : Int) (fp : Option Int) (ts : Int)
    (h : nsKeysUnique tbl) :
    nsKeysUnique (db_upsert_notify_state tbl u p i d fp ts) := by
  induction tbl with
  | nil =>
    simp [db_upsert_notify_state, nsKeysUnique]
  | cons r rest ih =>
    rw [nsKeysUnique, List.pairwise_cons] at h
    obtain ⟨hr, hrest⟩ := h
    by_cases hc : nsKey r = (u, p, i)
    · rw [upsert_cons_conflict r rest u p i d fp ts hc, nsKeysUnique,
        List.pairwise_cons]
      exact ⟨fun b hb => hr b hb, hrest⟩
    · rw [upsert_cons_skip r rest u p i d fp ts hc, nsKeysUnique,
        List.pairwise_cons]
      refine ⟨fun b hb => ?_, ih hrest⟩
      rcases mem_upsert_key u p i d fp ts rest b hb with hk | ⟨a, ha, hk⟩
      · rw [hk]
        exact hc
      · rw [hk]
        exact hr a ha

/-- Claim C7 witness: upserting a fresh key into a one-row table keeps all
keys distinct. -/
theorem C7_upsert_preserves_key_uniqueness_witness :
    nsKeysUnique (db_upsert_notify_state [⟨1, "steam", "570", 5, some 900, 1⟩]
      1 "steam" "730" 10 (some 500) 2) :=
  C7_upsert_preserves_key_uniqueness [⟨1, "steam", "570", 5, some 900, 1⟩]
    1 "steam" "730" 10 (some 500) 2 (by simp [nsKeysUnique])

/-- Claim C8: insert-if-absent and delete-by-key semantics of the wishlist
and tracking stores: adding an existing composite key returns `false` and
leaves the table unchanged; removal returns `true` exactly when a row with
the key existed, and no row with the key survives the removal. -/
theorem C8_insert_if_absent_delete_by_key (wl : List WRow)
    (tr : List TrackingRow) (u : Int) (p i title : String) (th : Int) :
    ((∃ r ∈ wl, wKey r = (u, p, i)) →
      db_add_wishlist wl u p i title = (false, wl)) ∧
    ((db_remove_wishlist wl u p i).1 = true ↔ ∃ r ∈ wl, wKey r = (u, p, i)) ∧
    (∀ r ∈ (db_remove_wishlist wl u p i).2, wKey r ≠ (u, p, i)) ∧
    ((∃ r ∈ tr, tKey r = (u, p, i)) →
      db_add_tracking tr u p i title th = (false, tr)) ∧
    ((db_remove_tracking tr u p i).1 = true ↔ ∃ r ∈ tr, tKey r = (u, p, i)) := by
  refine ⟨?_, ?_, ?_, ?_, ?_⟩
  · intro hex
    have : wl.any (fun r => wKey r == (u, p, i)) = true := by
      rw [List.any_eq_true]
      obtain ⟨r, hr, hk⟩ := hex
      exact ⟨r, hr, by simp [hk]⟩
    simp [db_add_wishlist, this]
  · rw [db_remove_wishlist]
    simp only [decide_eq_true_eq]
    rw [List.length_filter_lt_length_iff_exists]
    constructor
    · rintro ⟨r, hr, hk⟩
      exact ⟨r, hr, by simpa using hk⟩
    · rintro ⟨r, hr, hk⟩
      exact ⟨r, hr, by simp [hk]⟩
  · intro r hr
    rw [db_remove_wishlist] at hr
    simp only [List.mem_filter] at hr
    simpa using hr.2
  · intro hex
    have : tr.any (fun r => tKey r == (u, p, i)) = true := by
      rw [List.any_eq_true]
      obtain ⟨r, hr, hk⟩ := hex
      exact ⟨r, hr, by simp [hk]⟩
    simp [db_add_tracking, this]
  · rw [db_remove_tracking]
    simp only [decide_eq_true_eq]
    rw [List.length_filter_lt_length_iff_exists]
    constructor
    · rintro ⟨r, hr, hk⟩
      exact ⟨r, hr, by simpa using hk⟩
    · rintro ⟨r, hr, hk⟩
      exact ⟨r, hr, by simp [hk]⟩

/-- Claim C8 witness: duplicate wishlist insertion returns `false` and leaves
the single-row table unchanged. -/
theorem C8_insert_if_absent_delete_by_key_witness :
    db_add_wishlist [⟨1, "steam", "730", "CS2"⟩] 1 "steam" "730" "CS2 again"
      = (false, [⟨1, "steam", "730", "CS2"⟩]) :=
  (C8_insert_if_absent_delete_by_key [⟨1, "steam", "730", "CS2"⟩] [] 1 "steam"
      "730" "CS2 again" 0).1
    ⟨⟨1, "steam", "730", "CS2"⟩, by simp, rfl⟩

lemma processItem_skip (fetch : String → Option PriceInfo)
    (deliver : Message → Bool) (ts : Int)
    (acc : List NSRow × List (Message × Bool)) (row : TrackingRow)
    (hf : fetch row.identifier = none) :
    processItem fetch deliver ts acc row = acc := by
  simp [processItem, hf]

/-- Claim C9: a failed price fetch isolates only its own item: the cycle over
the tracked rows with the failing item present produces exactly the table and
send log of the cycle without it (the item is skipped, its state untouched,
and every other item processed identically). -/
theorem C9_failed_fetch_skips_only_that_item
    (fetch : String → Option PriceInfo) (deliver : Message → Bool) (ts : Int)
    (l1 l2 : List TrackingRow) (j : TrackingRow) (ns : List NSRow)
    (hf : fetch j.identifier = none) :
    job_check_prices fetch deliver ts (l1 ++ j :: l2) ns
      = job_check_prices fetch deliver ts (l1 ++ l2) ns := by
  rw [job_check_prices, job_check_prices, List.foldl_append, List.foldl_append,
    List.foldl_cons, processItem_skip fetch deliver ts _ j hf]

/-- Claim C9 witness: in a concrete two-item cycle whose middle item's fetch
fails, the job output equals the output of the cycle without that item. -/
theorem C9_failed_fetch_skips_only_that_item_witness :
    job_check_prices
        (fun id => if id == "bad" then none
          else some ⟨some "G", 10, some 900, some 1000, "u"⟩)
        (fun _ => true) 4
        ([⟨1, "steam", "570", "A", 0⟩] ++ ⟨2, "steam", "bad", "B", 0⟩ ::
          [⟨3, "steam", "730", "C", 0⟩]) []
      = job_check_prices
          (fun id => if id == "bad" then none
            else some ⟨some "G", 10, some 900, some 1000, "u"⟩)
          (fun _ => true) 4
          ([⟨1, "steam", "570", "A", 0⟩] ++ [⟨3, "steam", "730", "C", 0⟩]) [] :=
  C9_failed_fetch_skips_only_that_item
    (fun id => if id == "bad" then none
      else some ⟨some "G", 10, some 900, some 1000, "u"⟩)
    (fun _ => true) 4 [⟨1, "steam", "570", "A", 0⟩]
    [⟨3, "steam", "730", "C", 0⟩] ⟨2, "steam", "bad", "B", 0⟩ [] (by decide)

lemma processItem_threshold (fetch : String → Option PriceInfo)
    (deliver : Message → Bool) (ts : Int)
    (acc : List NSRow × List (Message × Bool)) (r : TrackingRow) (t : Int) :
    processItem fetch deliver ts acc
        ⟨r.user_id, r.platform, r.identifier, r.title, t⟩
      = processItem fetch deliver ts acc r := by
  cases r
  rfl

/-- Claim C10: the stored alert threshold never influences behaviour:
reassigning every tracked row's threshold arbitrarily leaves the job's
resulting `notify_state` table and its send log (messages and outcomes)
unchanged. -/
theorem C10_threshold_has_no_influence (fetch : String → Option PriceInfo)
    (deliver : Message → Bool) (ts : Int) (tracked : List TrackingRow)
    (ns : List NSRow) (g : TrackingRow → Int) :
    job_check_prices fetch deliver ts
        (tracked.map (fun r =>
          ⟨r.user_id, r.platform, r.identifier, r.title, g r⟩)) ns
      = job_check_prices fetch deliver ts tracked ns := by
  rw [job_check_prices, job_check_prices]
  generalize (ns, ([] : List (Message × Bool))) = acc
  induction tracked generalizing acc with
  | nil => rfl
  | cons r rest ih =>
    rw [List.map_cons, List.foldl_cons, List.foldl_cons,
      processItem_threshold fetch deliver ts acc r (g r)]
    exact ih _

end BlueHorizonDeals
